import Mathlib

/-!
Shallow embedding of the bracket-iq propagation and scoring engine
(src/bracket_iq/models.py, src/bracket_iq/views.py, src/bracket_iq/admin.py).

Teams, games and brackets are identified by their database ids (`Nat`).
Nullable database columns become `Option`.  Django querysets over a fixed
bracket become association lists keyed by game id.  Operations that can
raise (Django `ValidationError`, `DoesNotExist`, database integrity errors,
Python `TypeError`) return `Except String`.
-/

namespace BracketIQ

abbrev TeamId := Nat

/-- `Round.get_points` (models.py 44-56): dict lookup
`\x7b0:0, 1:1, 2:2, 3:4, 4:8, 5:16, 6:32\x7d.get(round_value, 0)` over the
round ids FIRST_FOUR=0 .. CHAMPIONSHIP=6. -/
def getPoints (round_value : Nat) : Nat :=
  match round_value with
  | 0 => 0
  | 1 => 1
  | 2 => 2
  | 3 => 4
  | 4 => 8
  | 5 => 16
  | 6 => 32
  | _ => 0

/-- The scalar columns of `Game` (models.py 217-294) used by the engine.
`next_game` holds the id of the successor game, `none` for the championship. -/
structure GameRec where
  id : Nat
  round : Nat
  game_number : Nat
  seed1 : Option Nat
  team1 : Option TeamId
  seed2 : Option Nat
  team2 : Option TeamId
  winner : Option TeamId
  score1 : Option Int
  score2 : Option Int
  next_game : Option Nat
  deriving Repr, DecidableEq

/-- The columns of `BracketGame` (models.py 370-414) used by the engine
(the per-bracket overlay of a game within one bracket). -/
structure BracketGameRec where
  team1 : Option TeamId
  team2 : Option TeamId
  team1_seed : Option Nat
  team2_seed : Option Nat
  winner : Option TeamId
  deriving Repr, DecidableEq

/-- A freshly created `BracketGame(bracket=..., game=...)`: every nullable
column defaults to NULL. -/
def emptyBracketGame : BracketGameRec :=
  { team1 := none, team2 := none, team1_seed := none, team2_seed := none,
    winner := none }

/-- The columns of `Prediction` (models.py 297-367) for one (bracket, game)
pair; `is_correct` defaults to False and `points_earned` to 0. -/
structure PredictionRec where
  predicted_winner : TeamId
  is_correct : Bool
  points_earned : Nat
  deriving Repr, DecidableEq

/-- The mutable per-bracket state touched by prediction creation and bracket
generation: the bracket's predictions and its BracketGame overlay, both keyed
by game id (unique_together ("bracket", "game") on both models). -/
structure BracketState where
  predictions : List (Nat × PredictionRec)
  overlays : List (Nat × BracketGameRec)
  deriving Repr, DecidableEq

/-- Row lookup by key (`objects.filter(bracket=..., game=game).first()`). -/
def lookupA {α : Type} (l : List (Nat × α)) (i : Nat) : Option α :=
  (l.find? (fun p => p.1 == i)).map Prod.snd

/-- Update the row with key `i` in place, or insert it (the net effect of
Django `update_or_create` / `get_or_create` followed by `save()`). -/
def upsertA {α : Type} : List (Nat × α) → Nat → α → List (Nat × α)
  | [], i, v => [(i, v)]
  | (j, w) :: t, i, v => if j == i then (j, v) :: t else (j, w) :: upsertA t i v

/-- `Game.objects.get(id=gid)` over the tournament's games. -/
def findGame (games : List GameRec) (gid : Nat) : Option GameRec :=
  games.find? (fun g => g.id == gid)

/-- `Game.objects.filter(next_game=next_game).exclude(id=game.id).first()`
(views.py 438-440): the sibling game feeding the same successor. -/
def otherGame (games : List GameRec) (gid : Nat) (nid : Nat) : Option GameRec :=
  (games.filter (fun h => h.next_game == some nid && !(h.id == gid))).head?

/-- The score checks of `Game.clean` (models.py 256-264), run after the
winner check. -/
def gameCleanScores (g : GameRec) : Except String Unit :=
  if g.score1.isNone ≠ g.score2.isNone then
    .error "Both scores must be entered together"
  else
    match g.score1, g.score2 with
    | some s1, some s2 =>
      if g.winner = none then
        .error "Winner must be set if scores are entered"
      else if s1 > s2 ∧ g.winner ≠ g.team1 then
        .error "Winner must be team1 when the team1 score is higher"
      else if s2 > s1 ∧ g.winner ≠ g.team2 then
        .error "Winner must be team2 when the team2 score is higher"
      else .ok ()
    | _, _ => .ok ()

/-- `Game.clean` (models.py 253-264).  Checks run in source order; the first
violated check raises `ValidationError`. -/
def gameClean (g : GameRec) : Except String Unit :=
  match g.winner with
  | some w =>
    if ¬(g.team1 = some w ∨ g.team2 = some w) then
      .error "Winner must be one of the teams playing in the game"
    else gameCleanScores g
  | none => gameCleanScores g

/-- The prediction update performed by `Game.save` (models.py 279-286) on one
prediction row once the winner changed to `w`. -/
def resolveAgainst (round : Nat) (w : TeamId) (p : PredictionRec) : PredictionRec :=
  let c : Bool := p.predicted_winner == w
  { p with is_correct := c, points_earned := if c then getPoints round else 0 }

/-- `Game.save` (models.py 266-286), restricted to an already persisted game
(`self.pk` set): compares the stored winner `oldWinner` with the incoming
`newWinner` and, when the winner changed to a non-null team, re-evaluates
every prediction recorded for the game.  Returns the updated predictions. -/
def gameSave (round : Nat) (oldWinner newWinner : Option TeamId)
    (preds : List PredictionRec) : List PredictionRec :=
  let winner_changed : Bool := oldWinner != newWinner
  match newWinner with
  | some w => if winner_changed then preds.map (resolveAgainst round w) else preds
  | none => preds

/-- `Prediction.calculate_points` (models.py 312-334) for a prediction whose
game exists and has `round` set: 0 unless `is_correct`, else the round
points. -/
def calculatePoints (is_correct : Bool) (round : Nat) : Nat :=
  if !is_correct then 0 else getPoints round

/-- `BracketIQAdminSite._update_predictions` (admin.py 611-620): no-op when
the game has no winner, otherwise re-evaluates every prediction for the
game. -/
def updatePredictions (round : Nat) (winner : Option TeamId)
    (preds : List PredictionRec) : List PredictionRec :=
  match winner with
  | none => preds
  | some w =>
    preds.map (fun p =>
      let c : Bool := p.predicted_winner == w
      { p with is_correct := c, points_earned := calculatePoints c round })

/-- `BracketIQAdminSite._update_next_game` (admin.py 594-609): writes `winner`
(the winner of `game`) and its originating seed into the first empty slot of
the successor game.  `next` is `game.next_game`; when it is null nothing
happens. -/
def updateNextGame (game : GameRec) (winner : TeamId) (next : Option GameRec) :
    Option GameRec :=
  match next with
  | none => none
  | some n =>
    let seed := if game.team1 = some winner then game.seed1 else game.seed2
    some (if n.team1 = none then { n with team1 := some winner, seed1 := seed }
          else { n with team2 := some winner, seed2 := seed })

/-- `Prediction.objects.update_or_create(bracket=bracket, game=game,
defaults=\x7b"predicted_winner": winner\x7d)` (views.py 431-433): update the
existing row's predicted winner, or insert a fresh row with the model's
defaults. -/
def upsertPrediction (preds : List (Nat × PredictionRec)) (gid : Nat)
    (w : TeamId) : List (Nat × PredictionRec) :=
  match lookupA preds gid with
  | some p => upsertA preds gid { p with predicted_winner := w }
  | none =>
    upsertA preds gid
      { predicted_winner := w, is_correct := false, points_earned := 0 }

/-- The successor-slot write of `create_prediction` (views.py 448-486): with
a sibling game feeding the same successor, the lower game number writes slot
1 and the higher writes slot 2; with no sibling, the first empty slot is
written. -/
def viewAdvanceSlot (game : GameRec) (bg nbg : BracketGameRec)
    (other : Option GameRec) (w : TeamId) : BracketGameRec :=
  let wseed := if bg.team1 = some w then bg.team1_seed else bg.team2_seed
  match other with
  | some og =>
    if game.game_number < og.game_number then
      { nbg with team1 := some w, team1_seed := wseed }
    else
      { nbg with team2 := some w, team2_seed := wseed }
  | none =>
    if nbg.team1 = none then
      { nbg with team1 := some w, team1_seed := wseed }
    else
      { nbg with team2 := some w, team2_seed := wseed }

/-- `create_prediction` (views.py 407-489) for one fixed bracket: look up the
game and the bracket's BracketGame for it, reject a winner that is not one of
the bracket game's two teams, `update_or_create` the prediction, and when the
game has a successor write the winner into the successor's BracketGame slot —
by game-number order when a sibling game feeds the same successor, else into
the first empty slot.  Errors carry the Django 404 / message text. -/
def createPrediction (games : List GameRec) (gid : Nat) (w : TeamId)
    (s : BracketState) : Except String BracketState :=
  match findGame games gid with
  | none => .error "Not Found"
  | some game =>
    match lookupA s.overlays gid with
    | none => .error "Not Found"
    | some bracket_game =>
      if bracket_game.team1 = some w ∨ bracket_game.team2 = some w then
        let predictions := upsertPrediction s.predictions gid w
        match game.next_game with
        | none => .ok { s with predictions := predictions }
        | some nid =>
          let other_game := otherGame games gid nid
          let next_bracket_game := (lookupA s.overlays nid).getD emptyBracketGame
          let nbg := viewAdvanceSlot game bracket_game next_bracket_game other_game w
          .ok { predictions := predictions,
                overlays := upsertA s.overlays nid nbg }
      else .error "Invalid winner selection"

/-- The request as seen by the client: the resulting bracket state plus the
error message, if any (an error response leaves the state as it was). -/
def runCreatePrediction (games : List GameRec) (gid : Nat) (w : TeamId)
    (s : BracketState) : BracketState × Option String :=
  match createPrediction games gid w s with
  | .ok s' => (s', none)
  | .error e => (s, some e)

/-- The HIGHER_SEED branch of `_generate_predictions` (admin.py 266-270):
`team1 if team1_seed < team2_seed else team2`.  A NULL seed raises a Python
TypeError at the comparison; the chosen team may itself be NULL. -/
def strategyHigherSeed (bg : BracketGameRec) : Except String (Option TeamId) :=
  match bg.team1_seed, bg.team2_seed with
  | some s1, some s2 => .ok (if s1 < s2 then bg.team1 else bg.team2)
  | _, _ => .error "TypeError: comparison with None"

/-- The successor-slot write of `predict_and_advance` (admin.py 295-309):
the winner of the game whose bracket game is `bg` is written, with its
originating seed, into the first empty slot of the successor's bracket game
`nbg0`; when both slots are already taken nothing is written. -/
def advanceSlot (bg nbg0 : BracketGameRec) (winner : TeamId) : BracketGameRec :=
  let winner_seed :=
    if bg.team1 = some winner then bg.team1_seed else bg.team2_seed
  if nbg0.team1 = none then
    { nbg0 with team1 := some winner, team1_seed := winner_seed }
  else if nbg0.team2 = none then
    { nbg0 with team2 := some winner, team2_seed := winner_seed }
  else nbg0

/-- `predict_and_advance` (admin.py 257-313) with the HIGHER_SEED strategy:
skip when a prediction exists, otherwise pick the higher seed, create the
prediction, fill the first empty slot of the successor's BracketGame, and
when both successor slots are now set recurse into the successor.  Python
recursion is unbounded; `fuel` bounds it here, with exhaustion reported as an
error. -/
def predictAndAdvance (games : List GameRec) :
    Nat → GameRec → BracketState → Except String BracketState
  | 0, _, _ => .error "RecursionError"
  | fuel + 1, game, s =>
    if (lookupA s.predictions game.id).isSome then .ok s
    else
      match lookupA s.overlays game.id with
      | none => .error "BracketGame matching query does not exist"
      | some bracket_game =>
        match strategyHigherSeed bracket_game with
        | .error e => .error e
        | .ok none => .error "IntegrityError: predicted_winner is null"
        | .ok (some winner) =>
          let predictions := s.predictions ++
            [(game.id, { predicted_winner := winner, is_correct := false,
                         points_earned := 0 : PredictionRec })]
          match game.next_game with
          | none => .ok { s with predictions := predictions }
          | some nid =>
            match lookupA s.overlays nid with
            | none => .error "BracketGame matching query does not exist"
            | some next_bracket_game =>
              let nbg := advanceSlot bracket_game next_bracket_game winner
              let s' : BracketState :=
                { predictions := predictions,
                  overlays := upsertA s.overlays nid nbg }
              if nbg.team1.isSome ∧ nbg.team2.isSome then
                match findGame games nid with
                | none => .error "Game matching query does not exist"
                | some next_game => predictAndAdvance games fuel next_game s'
              else .ok s'

/-- The `order_by("round", "game_number")` comparison key. -/
def gameOrderLE (a b : GameRec) : Bool :=
  a.round < b.round || (a.round == b.round && a.game_number ≤ b.game_number)

/-- Ordered insertion for `sortGames`. -/
def insertGame (g : GameRec) : List GameRec → List GameRec
  | [] => [g]
  | h :: t => if gameOrderLE g h then g :: h :: t else h :: insertGame g t

/-- `games.order_by("round", "game_number")` for one tournament (insertion
sort by the (round, game_number) key). -/
def sortGames : List GameRec → List GameRec
  | [] => []
  | g :: t => insertGame g (sortGames t)

/-- The outer loop of `_generate_predictions` (admin.py 315-323) with the
HIGHER_SEED strategy, over an explicit suffix of the sorted game list. -/
def generateAux (games : List GameRec) (fuel : Nat) :
    List GameRec → BracketState → Except String BracketState
  | [], s => .ok s
  | game :: rest, s =>
    match lookupA s.overlays game.id with
    | none => .error "BracketGame matching query does not exist"
    | some bracket_game =>
      if bracket_game.team1.isNone ∨ bracket_game.team2.isNone then
        generateAux games fuel rest s
      else
        match predictAndAdvance games fuel game s with
        | .ok s' => generateAux games fuel rest s'
        | .error e => .error e

/-- `_generate_predictions(bracket, games, HIGHER_SEED)` (admin.py 254-323):
process every game in (round, game_number) order.  The recursion fuel
`games.length + 1` covers every next-game chain of an acyclic bracket. -/
def generatePredictions (games : List GameRec) (s : BracketState) :
    Except String BracketState :=
  generateAux games (games.length + 1) (sortGames games) s

/-- One prediction row of a bracket joined with its game, as read by
`Bracket.score` and `Bracket.max_possible_score` (models.py 182-196):
`prediction.game.round`, `prediction.game.winner`, and the prediction's own
columns. -/
structure BPred where
  round : Nat
  game_winner : Option TeamId
  predicted_winner : TeamId
  is_correct : Bool
  points_earned : Nat
  deriving Repr, DecidableEq

/-- `Bracket.score` (models.py 182-186): sum of `points_earned` over the
bracket's predictions. -/
def bracketScore (l : List BPred) : Nat :=
  (l.map BPred.points_earned).sum

/-- `Bracket.max_possible_score` (models.py 188-196): the score plus, for
every prediction whose game has no winner yet, that round's points. -/
def bracketMaxPossibleScore (l : List BPred) : Nat :=
  bracketScore l +
    ((l.filter (fun p => p.game_winner.isNone)).map (fun p => getPoints p.round)).sum

/-- The effect on one joined prediction row of `Game.save` re-evaluation when
its game's winner is set to `w` (models.py 279-286). -/
def resolveBPred (w : TeamId) (p : BPred) : BPred :=
  let c : Bool := p.predicted_winner == w
  { p with game_winner := some w, is_correct := c,
           points_earned := if c then getPoints p.round else 0 }

/-- Record an actual winner for the game of the `i`-th prediction of the
bracket (admin result entry followed by `Game.save` re-evaluation). -/
def setWinnerAt : List BPred → Nat → TeamId → List BPred
  | [], _, _ => []
  | p :: t, 0, w => resolveBPred w p :: t
  | p :: t, i + 1, w => p :: setWinnerAt t i w

/-- Generation invariant at game id `i`: if the bracket's overlay for `i`
has both teams set, then the bracket already holds a prediction for `i`. -/
def goodAt (s : BracketState) (i : Nat) : Prop :=
  (∃ bg, lookupA s.overlays i = some bg ∧
      bg.team1.isSome = true ∧ bg.team2.isSome = true) →
    (lookupA s.predictions i).isSome = true

/-- Demonstration game 1: round 1, game number 1, feeding game 3. -/
def demoG1 : GameRec :=
  { id := 1, round := 1, game_number := 1, seed1 := some 1, team1 := some 101,
    seed2 := some 16, team2 := some 102, winner := none, score1 := none,
    score2 := none, next_game := some 3 }

/-- Demonstration game 2: round 1, game number 2, feeding game 3. -/
def demoG2 : GameRec :=
  { id := 2, round := 1, game_number := 2, seed1 := some 8, team1 := some 103,
    seed2 := some 9, team2 := some 104, winner := none, score1 := none,
    score2 := none, next_game := some 3 }

/-- Demonstration game 3: the round-2 successor of games 1 and 2. -/
def demoG3 : GameRec :=
  { id := 3, round := 2, game_number := 3, seed1 := none, team1 := none,
    seed2 := none, team2 := none, winner := none, score1 := none,
    score2 := none, next_game := none }

/-- A three-game demonstration bracket: games 1 and 2 (round 1) feed game 3
(round 2). -/
def demoGames : List GameRec := [demoG1, demoG2, demoG3]

/-- The bracket overlay of demonstration game 1. -/
def demoBG1 : BracketGameRec :=
  { team1 := some 101, team2 := some 102, team1_seed := some 1,
    team2_seed := some 16, winner := none }

/-- The bracket overlay of demonstration game 2. -/
def demoBG2 : BracketGameRec :=
  { team1 := some 103, team2 := some 104, team1_seed := some 8,
    team2_seed := some 9, winner := none }

/-- The demonstration bracket's initial per-bracket state: seeded overlays for
the round-1 games, an empty overlay for the final, no predictions. -/
def demoState : BracketState :=
  { predictions := [],
    overlays := [(1, demoBG1), (2, demoBG2), (3, emptyBracketGame)] }

/-- The state `_generate_predictions` produces from `demoState` under
HIGHER_SEED: teams 101, 103 and 101 predicted for games 1, 2 and 3. -/
def demoResult : BracketState :=
  { predictions :=
      [(1, { predicted_winner := 101, is_correct := false, points_earned := 0 }),
       (2, { predicted_winner := 103, is_correct := false, points_earned := 0 }),
       (3, { predicted_winner := 101, is_correct := false, points_earned := 0 })],
    overlays :=
      [(1, { team1 := some 101, team2 := some 102, team1_seed := some 1,
             team2_seed := some 16, winner := none }),
       (2, { team1 := some 103, team2 := some 104, team1_seed := some 8,
             team2_seed := some 9, winner := none }),
       (3, { team1 := some 101, team2 := some 103, team1_seed := some 1,
             team2_seed := some 8, winner := none })] }

/-- Consistency of a stored prediction row with its game, as established by
the `Game.save` re-evaluation: `points_earned` is the round's points exactly
when the game is decided and predicted correctly, else 0. -/
def consistentBPred (p : BPred) : Prop :=
  p.points_earned =
    (match p.game_winner with
     | some w => if p.predicted_winner = w then getPoints p.round else 0
     | none => 0)

instance (p : BPred) : Decidable (consistentBPred p) := by
  unfold consistentBPred
  infer_instance

/-- A bracket's joined prediction rows after predicting team 1 in one game of
every round 0..6 and team 1 winning every game. -/
def demoPerfect : List BPred :=
  [{ round := 0, game_winner := some 1, predicted_winner := 1,
     is_correct := true, points_earned := 0 },
   { round := 1, game_winner := some 1, predicted_winner := 1,
     is_correct := true, points_earned := 1 },
   { round := 2, game_winner := some 1, predicted_winner := 1,
     is_correct := true, points_earned := 2 },
   { round := 3, game_winner := some 1, predicted_winner := 1,
     is_correct := true, points_earned := 4 },
   { round := 4, game_winner := some 1, predicted_winner := 1,
     is_correct := true, points_earned := 8 },
   { round := 5, game_winner := some 1, predicted_winner := 1,
     is_correct := true, points_earned := 16 },
   { round := 6, game_winner := some 1, predicted_winner := 1,
     is_correct := true, points_earned := 32 }]

/-- The state `create_prediction` produces from `demoState` when the user
picks team 101 in game 1: one prediction row and team 101 written into slot 1
of game 3's overlay. -/
def demoCreateResult : BracketState :=
  { predictions :=
      [(1, { predicted_winner := 101, is_correct := false, points_earned := 0 })],
    overlays :=
      [(1, demoBG1), (2, demoBG2),
       (3, { team1 := some 101, team2 := none, team1_seed := some 1,
             team2_seed := none, winner := none })] }

/-- A single round-1 prediction row whose game is still undecided. -/
def soloPred : BPred :=
  { round := 1, game_winner := none, predicted_winner := 5,
    is_correct := false, points_earned := 0 }

/-- A round-1 game feeding game 3, with teams 11 and 12 seeded 1 and 16. -/
def cexGame1 : GameRec :=
  { id := 1, round := 1, game_number := 1, seed1 := some 1, team1 := some 11,
    seed2 := some 16, team2 := some 12, winner := none, score1 := none,
    score2 := none, next_game := some 3 }

/-- The sibling round-1 game (higher game number) feeding game 3, with teams
21 and 22 seeded 8 and 9. -/
def cexGame2 : GameRec :=
  { id := 2, round := 1, game_number := 2, seed1 := some 8, team1 := some 21,
    seed2 := some 9, team2 := some 22, winner := none, score1 := none,
    score2 := none, next_game := some 3 }

/-- The successor game 3, with both participant slots still empty. -/
def cexNext : GameRec :=
  { id := 3, round := 2, game_number := 1, seed1 := none, team1 := none,
    seed2 := none, team2 := none, winner := none, score1 := none,
    score2 := none, next_game := none }

/-- `cexNext` after `_update_next_game` writes team 11 into its first empty
slot. -/
def cexNextAfter1 : GameRec :=
  { cexNext with team1 := some 11, seed1 := some 1 }

/-- `cexNextAfter1` after a second identical `_update_next_game` call writes
team 11 again, this time into slot 2. -/
def cexNextAfter2 : GameRec :=
  { cexNextAfter1 with team2 := some 11, seed2 := some 1 }

/-- A bracket game whose two teams 1 and 2 carry equal seeds 5. -/
def tieBracketGame : BracketGameRec :=
  { team1 := some 1, team2 := some 2, team1_seed := some 5,
    team2_seed := some 5, winner := none }

/-- A game whose stored winner 99 is neither of its participants 1 and 2. -/
def invalidWinnerGame : GameRec :=
  { id := 7, round := 1, game_number := 1, seed1 := some 1, team1 := some 1,
    seed2 := some 2, team2 := some 2, winner := some 99, score1 := none,
    score2 := none, next_game := none }

/-! ### Association-list lemmas -/

theorem lookupA_cons {α : Type} (j : Nat) (v : α) (t : List (Nat × α)) (i : Nat) :
    lookupA ((j, v) :: t) i = if j = i then some v else lookupA t i := by
  by_cases h : j = i <;> simp [lookupA, List.find?_cons, h]

theorem lookupA_upsertA_self {α : Type} (l : List (Nat × α)) (i : Nat) (v : α) :
    lookupA (upsertA l i v) i = some v := by
  induction l with
  | nil => simp [upsertA, lookupA]
  | cons hd t ih =>
    obtain ⟨j, w⟩ := hd
    by_cases h : j = i <;> simp [upsertA, h, lookupA_cons, ih]

theorem lookupA_upsertA_ne {α : Type} (l : List (Nat × α)) (i k : Nat) (v : α)
    (h : ¬ k = i) : lookupA (upsertA l i v) k = lookupA l k := by
  induction l with
  | nil =>
    rw [show upsertA ([] : List (Nat × α)) i v = [(i, v)] from rfl, lookupA_cons,
      if_neg (fun hh => h hh.symm)]
  | cons hd t ih =>
    obtain ⟨j, w⟩ := hd
    by_cases hj : j = i
    · subst hj
      rw [show upsertA ((j, w) :: t) j v = (j, v) :: t by simp [upsertA],
        lookupA_cons, lookupA_cons, if_neg (fun hh => h hh.symm),
        if_neg (fun hh => h hh.symm)]
    · rw [show upsertA ((j, w) :: t) i v = (j, w) :: upsertA t i v by
        simp [upsertA, hj], lookupA_cons, lookupA_cons, ih]

theorem upsertA_of_lookupA_eq {α : Type} (l : List (Nat × α)) (i : Nat) (v : α)
    (h : lookupA l i = some v) : upsertA l i v = l := by
  induction l with
  | nil => simp [lookupA] at h
  | cons hd t ih =>
    obtain ⟨j, w⟩ := hd
    by_cases hj : j = i
    · subst hj
      rw [lookupA_cons, if_pos rfl] at h
      cases h
      simp [upsertA]
    · rw [lookupA_cons, if_neg hj] at h
      simp [upsertA, hj, ih h]

theorem lookupA_append_of_isSome {α : Type} (l l' : List (Nat × α)) (i : Nat)
    (h : (lookupA l i).isSome = true) : lookupA (l ++ l') i = lookupA l i := by
  induction l with
  | nil => simp [lookupA] at h
  | cons hd t ih =>
    obtain ⟨j, w⟩ := hd
    by_cases hj : j = i
    · simp [lookupA_cons, hj]
    · rw [lookupA_cons, if_neg hj] at h
      simp [List.cons_append, lookupA_cons, hj, ih h]

theorem lookupA_append_right {α : Type} (l l' : List (Nat × α)) (i : Nat)
    (h : lookupA l i = none) : lookupA (l ++ l') i = lookupA l' i := by
  induction l with
  | nil => simp
  | cons hd t ih =>
    obtain ⟨j, w⟩ := hd
    by_cases hj : j = i
    · rw [lookupA_cons, if_pos hj] at h
      cases h
    · rw [lookupA_cons, if_neg hj] at h
      simp [List.cons_append, lookupA_cons, hj, ih h]

theorem lookupA_single_self {α : Type} (i : Nat) (v : α) :
    lookupA [(i, v)] i = some v := by
  simp [lookupA_cons]

/-! ### Queryset lemmas: `find?` and `filter` under unique ids -/

theorem findGame_eq_self (games : List GameRec) (g : GameRec)
    (hnd : (games.map GameRec.id).Nodup) (hg : g ∈ games) :
    findGame games g.id = some g := by
  induction games with
  | nil => cases hg
  | cons a t ih =>
    rw [List.map_cons, List.nodup_cons] at hnd
    by_cases h : a.id = g.id
    · have hag : a = g := by
        rcases List.mem_cons.mp hg with h1 | h1
        · exact h1.symm
        · exact absurd (h ▸ List.mem_map_of_mem GameRec.id h1) hnd.1
      simp [findGame, List.find?_cons, hag]
    · have hgt : g ∈ t := by
        rcases List.mem_cons.mp hg with h1 | h1
        · exact absurd (congrArg GameRec.id h1.symm) h
        · exact h1
      have := ih hnd.2 hgt
      simpa [findGame, List.find?_cons, h] using this

theorem filter_eq_singleton (games : List GameRec) (g : GameRec)
    (p : GameRec → Bool) (hnd : (games.map GameRec.id).Nodup) (hg : g ∈ games)
    (hpg : p g = true) (huniq : ∀ y ∈ games, p y = true → y = g) :
    games.filter p = [g] := by
  induction games with
  | nil => cases hg
  | cons a t ih =>
    rw [List.map_cons, List.nodup_cons] at hnd
    by_cases hpa : p a = true
    · have hag : a = g := huniq a (List.mem_cons_self a t) hpa
      subst hag
      have hnone : t.filter p = [] := by
        rw [List.filter_eq_nil_iff]
        intro y hy hpy
        have : y = a := huniq y (List.mem_cons_of_mem a hy) hpy
        subst this
        exact hnd.1 (List.mem_map_of_mem GameRec.id hy)
      simp [List.filter_cons, hpa, hnone]
    · have hgt : g ∈ t := by
        rcases List.mem_cons.mp hg with h1 | h1
        · subst h1; exact absurd hpg hpa
        · exact h1
      have huniq' : ∀ y ∈ t, p y = true → y = g := fun y hy =>
        huniq y (List.mem_cons_of_mem a hy)
      simpa [List.filter_cons, hpa] using ih hnd.2 hgt huniq'

theorem otherGame_eq (games : List GameRec) (g1 g2 : GameRec) (nid : Nat)
    (hnd : (games.map GameRec.id).Nodup) (hg2 : g2 ∈ games)
    (hfeed2 : g2.next_game = some nid) (hne : ¬ g2.id = g1.id)
    (hfeeders : ∀ y ∈ games, y.next_game = some nid → y = g1 ∨ y = g2) :
    otherGame games g1.id nid = some g2 := by
  have hfilter : games.filter
      (fun h => h.next_game == some nid && !(h.id == g1.id)) = [g2] := by
    apply filter_eq_singleton games g2 _ hnd hg2
    · simp [hfeed2, hne]
    · intro y hy hpy
      simp only [Bool.and_eq_true, beq_iff_eq, Bool.not_eq_true',
        beq_eq_false_iff_ne, ne_eq] at hpy
      rcases hfeeders y hy hpy.1 with h | h
      · exact absurd (congrArg GameRec.id h) hpy.2
      · exact h
  simp [otherGame, hfilter]

theorem findGame_id (games : List GameRec) (nid : Nat) (ng : GameRec)
    (h : findGame games nid = some ng) : ng.id = nid := by
  have := List.find?_some h
  simpa using this

/-! ### `create_prediction` computation lemmas -/

theorem createPrediction_advance (games : List GameRec) (gid : Nat)
    (w : TeamId) (s : BracketState) (g : GameRec) (bg : BracketGameRec)
    (nid : Nat) (hfind : findGame games gid = some g)
    (hbg : lookupA s.overlays gid = some bg)
    (hval : bg.team1 = some w ∨ bg.team2 = some w)
    (hnext : g.next_game = some nid) :
    createPrediction games gid w s = .ok
      { predictions := upsertPrediction s.predictions gid w,
        overlays := upsertA s.overlays nid
          (viewAdvanceSlot g bg ((lookupA s.overlays nid).getD emptyBracketGame)
            (otherGame games gid nid) w) } := by
  simp only [createPrediction, hfind, hbg]
  rw [if_pos hval, hnext]

theorem upsertPrediction_idem (preds : List (Nat × PredictionRec)) (gid : Nat)
    (w : TeamId) :
    upsertPrediction (upsertPrediction preds gid w) gid w =
      upsertPrediction preds gid w := by
  cases hp : lookupA preds gid with
  | some p =>
    have h1 : upsertPrediction preds gid w =
        upsertA preds gid { p with predicted_winner := w } := by
      simp [upsertPrediction, hp]
    rw [h1]
    have h2 := lookupA_upsertA_self preds gid { p with predicted_winner := w }
    simp only [upsertPrediction, h2]
    exact upsertA_of_lookupA_eq _ _ _ h2
  | none =>
    have h1 : upsertPrediction preds gid w = upsertA preds gid
        { predicted_winner := w, is_correct := false, points_earned := 0 } := by
      simp [upsertPrediction, hp]
    rw [h1]
    have h2 := lookupA_upsertA_self preds gid
      ({ predicted_winner := w, is_correct := false, points_earned := 0 } :
        PredictionRec)
    simp only [upsertPrediction, h2]
    exact upsertA_of_lookupA_eq _ _ _ h2

theorem viewAdvanceSlot_idem (g : GameRec) (bg nbg0 : BracketGameRec)
    (og : GameRec) (w : TeamId) :
    viewAdvanceSlot g bg (viewAdvanceSlot g bg nbg0 (some og) w) (some og) w =
      viewAdvanceSlot g bg nbg0 (some og) w := by
  by_cases hlt : g.game_number < og.game_number <;>
    simp [viewAdvanceSlot, hlt]

/-! ### Scoring decomposition lemmas -/

theorem bracketMax_cons (p : BPred) (t : List BPred) :
    bracketMaxPossibleScore (p :: t) =
      (p.points_earned +
        if p.game_winner.isNone = true then getPoints p.round else 0) +
      bracketMaxPossibleScore t := by
  by_cases hw : p.game_winner.isNone = true <;>
    simp [bracketMaxPossibleScore, bracketScore, List.filter_cons, hw] <;> omega

/-! ### Generation invariant lemmas -/

theorem predictAndAdvance_spec (games : List GameRec) :
    ∀ (fuel : Nat) (g : GameRec) (s s' : BracketState),
      predictAndAdvance games fuel g s = .ok s' →
      ((∀ i, (lookupA s.predictions i).isSome = true →
          (lookupA s'.predictions i).isSome = true) ∧
       (∀ i, (lookupA s.overlays i).isSome = true →
          (lookupA s'.overlays i).isSome = true) ∧
       (lookupA s'.predictions g.id).isSome = true ∧
       (∀ i, goodAt s i → goodAt s' i)) := by
  intro fuel
  induction fuel with
  | zero => intro g s s' h; simp [predictAndAdvance] at h
  | succ n ih =>
    intro g s s' h
    simp only [predictAndAdvance] at h
    by_cases hex : (lookupA s.predictions g.id).isSome = true
    · rw [if_pos hex] at h
      cases h
      exact ⟨fun i hi => hi, fun i hi => hi, hex, fun i hi => hi⟩
    · rw [if_neg hex] at h
      have hexn : lookupA s.predictions g.id = none := by
        cases hx : lookupA s.predictions g.id
        · rfl
        · exact absurd (by simp [hx]) hex
      cases hbg : lookupA s.overlays g.id with
      | none => rw [hbg] at h; cases h
      | some bg =>
        rw [hbg] at h
        dsimp only at h
        cases hstr : strategyHigherSeed bg with
        | error e => rw [hstr] at h; dsimp only at h; cases h
        | ok w? =>
          rw [hstr] at h
          cases w? with
          | none => dsimp only at h; cases h
          | some winner =>
            dsimp only at h
            cases hng : g.next_game with
            | none =>
              rw [hng] at h
              dsimp only at h
              cases h
              refine ⟨fun i hi => lookupA_append_of_isSome _ _ _ hi ▸ hi, fun i hi => hi, ?_, ?_⟩
              · rw [lookupA_append_right _ _ _ hexn, lookupA_single_self]
                rfl
              · intro i hi hex2
                exact (lookupA_append_of_isSome _ _ _ (hi hex2)) ▸ (hi hex2)
            | some nid =>
              rw [hng] at h
              dsimp only at h
              cases hnbg0 : lookupA s.overlays nid with
              | none => rw [hnbg0] at h; dsimp only at h; cases h
              | some nbg0 =>
                rw [hnbg0] at h
                dsimp only at h
                by_cases hboth : (advanceSlot bg nbg0 winner).team1.isSome = true ∧
                    (advanceSlot bg nbg0 winner).team2.isSome = true
                · rw [if_pos hboth] at h
                  cases hng2 : findGame games nid with
                  | none => rw [hng2] at h; dsimp only at h; cases h
                  | some ng =>
                    rw [hng2] at h
                    dsimp only at h
                    obtain ⟨m1, m2, m3, m4⟩ := ih ng _ s' h
                    refine ⟨?_, ?_, ?_, ?_⟩
                    · intro i hi
                      apply m1 i
                      rw [lookupA_append_of_isSome _ _ _ hi]
                      exact hi
                    · intro i hi
                      apply m2 i
                      by_cases hin : i = nid
                      · subst hin
                        rw [lookupA_upsertA_self]
                        rfl
                      · rw [lookupA_upsertA_ne _ _ _ _ hin]
                        exact hi
                    · apply m1 g.id
                      rw [lookupA_append_right _ _ _ hexn, lookupA_single_self]
                      rfl
                    · intro i hi
                      by_cases hin : i = nid
                      · intro _
                        have hngid := findGame_id games nid ng hng2
                        rw [hin, ← hngid]
                        exact m3
                      · apply m4 i
                        intro hex2
                        obtain ⟨bg', hbg', h1, h2⟩ := hex2
                        rw [lookupA_upsertA_ne _ _ _ _ hin] at hbg'
                        have hs := hi ⟨bg', hbg', h1, h2⟩
                        rw [lookupA_append_of_isSome _ _ _ hs]
                        exact hs
                · rw [if_neg hboth] at h
                  cases h
                  refine ⟨?_, ?_, ?_, ?_⟩
                  · intro i hi
                    rw [lookupA_append_of_isSome _ _ _ hi]
                    exact hi
                  · intro i hi
                    by_cases hin : i = nid
                    · subst hin
                      rw [lookupA_upsertA_self]
                      rfl
                    · rw [lookupA_upsertA_ne _ _ _ _ hin]
                      exact hi
                  · rw [lookupA_append_right _ _ _ hexn, lookupA_single_self]
                    rfl
                  · intro i hi
                    by_cases hin : i = nid
                    · subst hin
                      intro hex2
                      obtain ⟨bg', hbg', h1, h2⟩ := hex2
                      rw [lookupA_upsertA_self] at hbg'
                      cases hbg'
                      exact absurd ⟨h1, h2⟩ hboth
                    · intro hex2
                      obtain ⟨bg', hbg', h1, h2⟩ := hex2
                      rw [lookupA_upsertA_ne _ _ _ _ hin] at hbg'
                      have hs := hi ⟨bg', hbg', h1, h2⟩
                      rw [lookupA_append_of_isSome _ _ _ hs]
                      exact hs

theorem generateAux_spec (games : List GameRec) (fuel : Nat) :
    ∀ (l : List GameRec) (s s' : BracketState),
      generateAux games fuel l s = .ok s' →
      ((∀ i, (lookupA s.predictions i).isSome = true →
          (lookupA s'.predictions i).isSome = true) ∧
       (∀ i, (lookupA s.overlays i).isSome = true →
          (lookupA s'.overlays i).isSome = true) ∧
       (∀ i, goodAt s i → goodAt s' i) ∧
       (∀ g ∈ l, (lookupA s'.overlays g.id).isSome = true ∧ goodAt s' g.id)) := by
  intro l
  induction l with
  | nil =>
    intro s s' h
    cases h
    exact ⟨fun i hi => hi, fun i hi => hi, fun i hi => hi, by simp⟩
  | cons game rest ih =>
    intro s s' h
    simp only [generateAux] at h
    cases hbg : lookupA s.overlays game.id with
    | none => rw [hbg] at h; dsimp only at h; cases h
    | some bg =>
      rw [hbg] at h
      dsimp only at h
      by_cases hskip : bg.team1.isNone = true ∨ bg.team2.isNone = true
      · rw [if_pos hskip] at h
        obtain ⟨m1, m2, m3, m4⟩ := ih s s' h
        refine ⟨m1, m2, m3, ?_⟩
        intro g hg
        rcases List.mem_cons.mp hg with h1 | h1
        · subst h1
          refine ⟨m2 _ (by simp [hbg]), ?_⟩
        -- the head game had a half-empty overlay, so it was vacuously good
          apply m3
          intro hex2
          obtain ⟨bg', hbg', h1', h2'⟩ := hex2
          rw [hbg] at hbg'
          cases hbg'
          rcases hskip with hh | hh
          · rw [Option.isNone_iff_eq_none] at hh
            rw [hh] at h1'
            cases h1'
          · rw [Option.isNone_iff_eq_none] at hh
            rw [hh] at h2'
            cases h2'
        · exact m4 g h1
      · rw [if_neg hskip] at h
        cases hpa : predictAndAdvance games fuel game s with
        | error e => rw [hpa] at h; dsimp only at h; cases h
        | ok s1 =>
          rw [hpa] at h
          dsimp only at h
          obtain ⟨p1, p2, p3, p4⟩ := predictAndAdvance_spec games fuel game s s1 hpa
          obtain ⟨m1, m2, m3, m4⟩ := ih s1 s' h
          refine ⟨fun i hi => m1 i (p1 i hi), fun i hi => m2 i (p2 i hi),
            fun i hi => m3 i (p4 i hi), ?_⟩
          intro g hg
          rcases List.mem_cons.mp hg with h1 | h1
          · subst h1
            refine ⟨m2 _ (p2 _ (by simp [hbg])), ?_⟩
            intro _
            exact m1 _ p3
          · exact m4 g h1

theorem generateAux_identity (games : List GameRec) (fuel : Nat)
    (hfuel : 0 < fuel) :
    ∀ (l : List GameRec) (s : BracketState),
      (∀ g ∈ l, (lookupA s.overlays g.id).isSome = true ∧ goodAt s g.id) →
      generateAux games fuel l s = .ok s := by
  intro l
  induction l with
  | nil => intro s _; rfl
  | cons game rest ih =>
    intro s hinv
    obtain ⟨hov, hgood⟩ := hinv game (List.mem_cons_self game rest)
    cases hbg : lookupA s.overlays game.id with
    | none => rw [hbg] at hov; cases hov
    | some bg =>
      simp only [generateAux, hbg]
      by_cases hskip : bg.team1.isNone = true ∨ bg.team2.isNone = true
      · rw [if_pos hskip]
        exact ih s (fun g hg => hinv g (List.mem_cons_of_mem game hg))
      · rw [if_neg hskip]
        have h1 : bg.team1.isSome = true := by
          cases ht : bg.team1
          · exact absurd (Or.inl (by simp [ht])) hskip
          · simp
        have h2 : bg.team2.isSome = true := by
          cases ht : bg.team2
          · exact absurd (Or.inr (by simp [ht])) hskip
          · simp
        have hpred : (lookupA s.predictions game.id).isSome = true :=
          hgood ⟨bg, hbg, h1, h2⟩
        obtain ⟨m, hm⟩ : ∃ m, fuel = m + 1 := ⟨fuel - 1, by omega⟩
        have hfirst : predictAndAdvance games fuel game s = .ok s := by
          rw [hm]
          simp only [predictAndAdvance]
          rw [if_pos hpred]
        rw [hfirst]
        exact ih s (fun g hg => hinv g (List.mem_cons_of_mem game hg))

/-! ### Claim theorems -/

/-- C5: `Round.get_points` is the pure lookup FIRST_FOUR(0)↦0, ROUND_OF_64(1)↦1,
ROUND_OF_32(2)↦2, SWEET_16(3)↦4, ELITE_8(4)↦8, FINAL_FOUR(5)↦16,
CHAMPIONSHIP(6)↦32; for every pair of rounds R1 < R2 the points are
non-decreasing, and FIRST_FOUR is always worth 0. -/
theorem round_points_pure_monotone :
    (getPoints 0 = 0 ∧ getPoints 1 = 1 ∧ getPoints 2 = 2 ∧ getPoints 3 = 4 ∧
     getPoints 4 = 8 ∧ getPoints 5 = 16 ∧ getPoints 6 = 32) ∧
    (∀ r1 r2 : Nat, r1 < r2 → r2 ≤ 6 → getPoints r1 ≤ getPoints r2) ∧
    getPoints 0 = 0 := by
  refine ⟨⟨rfl, rfl, rfl, rfl, rfl, rfl, rfl⟩, ?_, rfl⟩
  intro r1 r2 h1 h2
  interval_cases r2 <;> interval_cases r1 <;> decide

/-- Witness for C5: points of ROUND_OF_64 do not exceed points of
ROUND_OF_32. -/
theorem round_points_pure_monotone_witness : getPoints 1 ≤ getPoints 2 :=
  round_points_pure_monotone.2.1 1 2 (by decide) (by decide)

/-- C10 (implicit): clearing a game's winner (a change from a team to null)
triggers no prediction re-evaluation in `Game.save` — every prediction row
keeps its stale `is_correct` and `points_earned`, so the bracket score still
counts points for the cleared game. -/
theorem clear_winner_keeps_stale_predictions :
    ∀ (round : Nat) (w : TeamId) (preds : List PredictionRec),
      gameSave round (some w) none preds = preds ∧
      ((gameSave round (some w) none preds).map PredictionRec.points_earned).sum
        = (preds.map PredictionRec.points_earned).sum :=
  fun _ _ _ => ⟨rfl, rfl⟩

/-- C4: whenever a persisted game's winner is set or changed to `w`,
`Game.save` (and the admin's `_update_predictions`) re-evaluates every
prediction of the game to `is_correct = (predicted_winner == w)` and
`points_earned = round points if correct else 0`; in particular a prediction
of `t1` flips to incorrect/0 when the winner becomes `t2 ≠ t1`, and flips
back when the winner is corrected to `t1`. -/
theorem winner_change_reevaluates_predictions :
    (∀ (round : Nat) (oldW : Option TeamId) (w : TeamId)
        (preds : List PredictionRec), oldW ≠ some w →
        ∀ p ∈ gameSave round oldW (some w) preds,
          p.is_correct = (p.predicted_winner == w) ∧
          p.points_earned =
            (if p.predicted_winner == w then getPoints round else 0)) ∧
    (∀ (round : Nat) (w : TeamId) (preds : List PredictionRec),
        ∀ p ∈ updatePredictions round (some w) preds,
          p.is_correct = (p.predicted_winner == w) ∧
          p.points_earned =
            (if p.predicted_winner == w then getPoints round else 0)) ∧
    (∀ (round : Nat) (t1 t2 : TeamId) (p : PredictionRec)
        (oldW : Option TeamId), t1 ≠ t2 → p.predicted_winner = t1 →
        oldW ≠ some t2 →
        (∀ q ∈ gameSave round oldW (some t2) [p],
            q.is_correct = false ∧ q.points_earned = 0) ∧
        (∀ q ∈ gameSave round (some t2) (some t1)
            (gameSave round oldW (some t2) [p]),
            q.is_correct = true ∧ q.points_earned = getPoints round)) := by
  refine ⟨?_, ?_, ?_⟩
  · intro round oldW w preds h p hp
    have hsave : gameSave round oldW (some w) preds =
        preds.map (resolveAgainst round w) := by
      simp [gameSave, bne_iff_ne, h]
    rw [hsave] at hp
    obtain ⟨q, _, rfl⟩ := List.mem_map.mp hp
    constructor <;> simp [resolveAgainst]
  · intro round w preds p hp
    obtain ⟨q, _, rfl⟩ := List.mem_map.mp hp
    cases hc : q.predicted_winner == w <;>
      simp [updatePredictions, calculatePoints, hc]
  · intro round t1 t2 p oldW hne hpw hold
    have h1 : gameSave round oldW (some t2) [p] =
        [resolveAgainst round t2 p] := by
      simp [gameSave, bne_iff_ne, hold]
    have hc1 : (p.predicted_winner == t2) = false := by
      simp [hpw]
      exact hne
    constructor
    · intro q hq
      rw [h1] at hq
      rcases List.mem_singleton.mp hq with rfl
      constructor <;> simp [resolveAgainst, hc1]
    · intro q hq
      rw [h1] at hq
      have h2 : gameSave round (some t2) (some t1)
          [resolveAgainst round t2 p] =
          [resolveAgainst round t1 (resolveAgainst round t2 p)] := by
        simp [gameSave, bne_iff_ne]
        exact fun hh => absurd hh.symm hne
      rw [h2] at hq
      rcases List.mem_singleton.mp hq with rfl
      constructor <;> simp [resolveAgainst, hpw]

/-- Witness for C4: a prediction of team 7 on a round-1 game whose winner is
set to 7 (previously unset) is re-evaluated to correct with 1 point. -/
theorem winner_change_reevaluates_predictions_witness :
    ({ predicted_winner := 7, is_correct := true, points_earned := 1 } :
        PredictionRec).is_correct =
      (({ predicted_winner := 7, is_correct := true, points_earned := 1 } :
        PredictionRec).predicted_winner == 7) ∧
    ({ predicted_winner := 7, is_correct := true, points_earned := 1 } :
        PredictionRec).points_earned =
      (if ({ predicted_winner := 7, is_correct := true, points_earned := 1 } :
        PredictionRec).predicted_winner == 7 then getPoints 1 else 0) :=
  winner_change_reevaluates_predictions.1 1 none 7
    [{ predicted_winner := 7, is_correct := false, points_earned := 0 }]
    (by decide)
    { predicted_winner := 7, is_correct := true, points_earned := 1 }
    (by decide)

/-- C6: `Bracket.score` is the sum of `points_earned` over the bracket's
predictions; on rows consistent with their games it equals the sum of round
points of exactly the correctly predicted decided games; an all-correct
bracket through rounds 1..6 scores 63 = 1+2+4+8+16+32, and a correctly
predicted First Four game contributes 0. -/
theorem bracket_score_aggregation :
    (∀ l : List BPred, (∀ p ∈ l, consistentBPred p) →
        bracketScore l =
          ((l.filter (fun p => p.game_winner == some p.predicted_winner)).map
            (fun p => getPoints p.round)).sum) ∧
    bracketScore demoPerfect = 63 ∧
    (∀ p : BPred, p.round = 0 → consistentBPred p → p.points_earned = 0) := by
  refine ⟨?_, by decide, ?_⟩
  · intro l hl
    induction l with
    | nil => rfl
    | cons p t ih =>
      have hp := hl p (List.mem_cons_self p t)
      have ht := ih (fun q hq => hl q (List.mem_cons_of_mem p hq))
      rw [bracketScore, List.map_cons, List.sum_cons, List.filter_cons]
      by_cases hc : (p.game_winner == some p.predicted_winner) = true
      · rw [if_pos hc, List.map_cons, List.sum_cons, ← ht]
        have hw : p.game_winner = some p.predicted_winner := by
          exact beq_iff_eq.mp hc
        rw [consistentBPred, hw] at hp
        simp at hp
        rw [hp]
        rfl
      · rw [if_neg hc, ← ht]
        have hpts : p.points_earned = 0 := by
          rw [consistentBPred] at hp
          cases hw : p.game_winner with
          | none => rw [hw] at hp; exact hp
          | some v =>
            rw [hw] at hp
            dsimp only at hp
            have hv : ¬ p.predicted_winner = v := by
              intro hh
              exact hc (by simp [hw, hh])
            rw [if_neg hv] at hp
            exact hp
        rw [hpts]
        simp [bracketScore]
  · intro p hr hp
    rw [consistentBPred] at hp
    cases hw : p.game_winner with
    | none => rw [hw] at hp; exact hp
    | some v =>
      rw [hw] at hp
      dsimp only at hp
      by_cases hv : p.predicted_winner = v
      · rw [if_pos hv, hr] at hp
        exact hp
      · rw [if_neg hv] at hp
        exact hp

/-- Witness for C6: on the all-correct demonstration bracket the score equals
the filtered round-points sum. -/
theorem bracket_score_aggregation_witness :
    bracketScore demoPerfect =
      ((demoPerfect.filter
          (fun p => p.game_winner == some p.predicted_winner)).map
        (fun p => getPoints p.round)).sum :=
  bracket_score_aggregation.1 demoPerfect (by decide)

/-- C7: `Bracket.max_possible_score` equals the score plus the round points
of every prediction whose game is undecided; deciding one previously
undecided predicted game (with `Game.save` re-evaluation) never increases
it; and once every predicted game is decided it equals the score. -/
theorem max_possible_score_monotone :
    (∀ l : List BPred, bracketMaxPossibleScore l = bracketScore l +
        ((l.filter (fun p => p.game_winner.isNone)).map
          (fun p => getPoints p.round)).sum) ∧
    (∀ (l : List BPred) (i : Nat) (w : TeamId) (p : BPred),
        l[i]? = some p → p.game_winner = none →
        bracketMaxPossibleScore (setWinnerAt l i w) ≤
          bracketMaxPossibleScore l) ∧
    (∀ l : List BPred, (∀ p ∈ l, p.game_winner ≠ none) →
        bracketMaxPossibleScore l = bracketScore l) := by
  refine ⟨fun _ => rfl, ?_, ?_⟩
  · intro l
    induction l with
    | nil => intro i w p hget; cases hget
    | cons q t ih =>
      intro i w p hget hnone
      cases i with
      | zero =>
        rw [List.getElem?_cons_zero] at hget
        cases hget
        rw [show setWinnerAt (q :: t) 0 w = resolveBPred w q :: t from rfl,
          bracketMax_cons, bracketMax_cons]
        apply Nat.add_le_add_right
        have h3 : (resolveBPred w q).points_earned ≤ getPoints q.round := by
          rw [show (resolveBPred w q).points_earned =
            (if (q.predicted_winner == w) = true then getPoints q.round else 0)
            from rfl]
          split
          · exact Nat.le_refl _
          · exact Nat.zero_le _
        rw [show (resolveBPred w q).game_winner = some w from rfl, hnone]
        simp
        exact le_trans h3 (Nat.le_add_left _ _)
      | succ n =>
        rw [List.getElem?_cons_succ] at hget
        rw [show setWinnerAt (q :: t) (n + 1) w = q :: setWinnerAt t n w
          from rfl, bracketMax_cons, bracketMax_cons]
        exact Nat.add_le_add_left (ih n w p hget hnone) _
  · intro l hl
    have hfil : l.filter (fun p => p.game_winner.isNone) = [] := by
      rw [List.filter_eq_nil_iff]
      intro p hp
      have := hl p hp
      cases hw : p.game_winner with
      | none => exact absurd hw this
      | some v => simp [hw]
    rw [bracketMaxPossibleScore, hfil]
    rfl

/-- Witness for C7: deciding the single undecided game of a one-prediction
bracket does not increase the maximum possible score. -/
theorem max_possible_score_monotone_witness :
    bracketMaxPossibleScore (setWinnerAt [soloPred] 0 6) ≤
      bracketMaxPossibleScore [soloPred] :=
  max_possible_score_monotone.2.1 [soloPred] 0 6 soloPred (by decide) (by decide)

/-- C8 counterexample: with equal seeds (5 and 5) the HIGHER_SEED branch
picks team2, not the team1 fallback the claim asserts. -/
theorem higher_seed_tie_counterexample :
    tieBracketGame.team1_seed = tieBracketGame.team2_seed ∧
    tieBracketGame.team1 = some 1 ∧ tieBracketGame.team2 = some 2 ∧
    strategyHigherSeed tieBracketGame = .ok (some 2) :=
  ⟨rfl, rfl, rfl, rfl⟩

/-- C8 amended: for candidates with known teams and seeds, HIGHER_SEED picks
the numerically lower seed, deterministically falls back to team2 (not
team1) when the seeds are equal, and never raises. -/
theorem higher_seed_rule_amended :
    ∀ (bg : BracketGameRec) (t1 t2 : TeamId) (s1 s2 : Nat),
      bg.team1 = some t1 → bg.team2 = some t2 →
      bg.team1_seed = some s1 → bg.team2_seed = some s2 →
      strategyHigherSeed bg = .ok (some (if s1 < s2 then t1 else t2)) ∧
      (s1 = s2 → strategyHigherSeed bg = .ok (some t2)) := by
  intro bg t1 t2 s1 s2 h1 h2 h3 h4
  constructor
  · simp only [strategyHigherSeed, h1, h2, h3, h4]
    by_cases hlt : s1 < s2 <;> simp [hlt]
  · intro hs
    simp only [strategyHigherSeed, h1, h2, h3, h4, hs]
    simp

/-- Witness for C8: on the equal-seed bracket game the amended rule yields
team2. -/
theorem higher_seed_rule_amended_witness :
    strategyHigherSeed tieBracketGame = .ok (some (if 5 < 5 then 1 else 2)) ∧
    (5 = 5 → strategyHigherSeed tieBracketGame = .ok (some 2)) :=
  higher_seed_rule_amended tieBracketGame 1 2 5 5 rfl rfl rfl rfl

/-- C3: a winner that is not one of the game's two known participants is
rejected before any mutation: `Game.clean` raises its `ValidationError`, and
`create_prediction` (which checks against the bracket's `BracketGame`)
answers with the error message and leaves the whole bracket state — its
prediction rows and every successor overlay — unchanged. -/
theorem invalid_winner_rejected_before_mutation :
    (∀ (g : GameRec) (w : TeamId), g.winner = some w →
        ¬(g.team1 = some w ∨ g.team2 = some w) →
        gameClean g =
          .error "Winner must be one of the teams playing in the game") ∧
    (∀ (games : List GameRec) (gid : Nat) (w : TeamId) (s : BracketState)
        (g : GameRec) (bg : BracketGameRec),
        findGame games gid = some g → lookupA s.overlays gid = some bg →
        ¬(bg.team1 = some w ∨ bg.team2 = some w) →
        runCreatePrediction games gid w s =
          (s, some "Invalid winner selection")) := by
  constructor
  · intro g w hw hnot
    simp only [gameClean, hw]
    rw [if_pos hnot]
  · intro games gid w s g bg hfind hbg hnot
    simp only [runCreatePrediction, createPrediction, hfind, hbg]
    rw [if_neg hnot]

/-- Witness for C3: a stored winner 99 among participants 1 and 2 is
rejected, and predicting team 999 in the demonstration bracket answers
"Invalid winner selection" with the state unchanged. -/
theorem invalid_winner_rejected_before_mutation_witness :
    gameClean invalidWinnerGame =
      .error "Winner must be one of the teams playing in the game" ∧
    runCreatePrediction demoGames 1 999 demoState =
      (demoState, some "Invalid winner selection") :=
  ⟨invalid_winner_rejected_before_mutation.1 invalidWinnerGame 99 rfl
      (by decide),
   invalid_winner_rejected_before_mutation.2 demoGames 1 999 demoState demoG1
      demoBG1 rfl rfl (by decide)⟩

/-- C2 counterexample: the canonical advance operation
(`_update_next_game`) is not idempotent — a second call with the same winner
11 writes 11 into the successor's slot 2 as well, so the successor state
after two calls differs from the state after one. -/
theorem advance_winner_not_idempotent_counterexample :
    updateNextGame cexGame1 11 (some cexNext) = some cexNextAfter1 ∧
    updateNextGame cexGame1 11 (some cexNextAfter1) = some cexNextAfter2 ∧
    cexNextAfter2 ≠ cexNextAfter1 ∧
    cexNextAfter1.team2 = none ∧ cexNextAfter2.team2 = some 11 :=
  ⟨rfl, rfl, by decide, rfl, rfl⟩

/-- C2 amended: a repeated `Game.save` with the unchanged winner performs no
prediction re-evaluation, and the bracket-overlay advance of
`create_prediction` is idempotent whenever the game has a sibling feeding
the same successor; but the canonical `_update_next_game` is not idempotent
(see the counterexample), because its empty-slot rule writes the winner into
slot 2 on the second call. -/
theorem advance_winner_idempotent_amended :
    (∀ (round : Nat) (w : TeamId) (preds : List PredictionRec),
        gameSave round (some w) (some w) preds = preds) ∧
    (∀ (games : List GameRec) (g og : GameRec) (nid : Nat) (w : TeamId)
        (s s' : BracketState),
        (games.map GameRec.id).Nodup → g ∈ games →
        g.next_game = some nid → ¬ nid = g.id →
        otherGame games g.id nid = some og →
        createPrediction games g.id w s = .ok s' →
        createPrediction games g.id w s' = .ok s') := by
  constructor
  · intro round w preds
    simp [gameSave]
  · intro games g og nid w s s' hnd hg hnext hnid hother h1
    have hfind : findGame games g.id = some g := findGame_eq_self games g hnd hg
    cases hbg : lookupA s.overlays g.id with
    | none =>
      rw [createPrediction, hfind, hbg] at h1
      cases h1
    | some bg =>
      by_cases hval : bg.team1 = some w ∨ bg.team2 = some w
      · rw [createPrediction_advance games g.id w s g bg nid hfind hbg hval
          hnext, hother] at h1
        cases h1
        have hbg' : lookupA (upsertA s.overlays nid
            (viewAdvanceSlot g bg ((lookupA s.overlays nid).getD
              emptyBracketGame) (some og) w)) g.id = some bg := by
          rw [lookupA_upsertA_ne _ _ _ _ (fun hh => hnid hh.symm)]
          exact hbg
        rw [createPrediction_advance games g.id w _ g bg nid hfind hbg' hval
          hnext, hother]
        rw [lookupA_upsertA_self, Option.getD_some, viewAdvanceSlot_idem,
          upsertPrediction_idem]
        rw [upsertA_of_lookupA_eq _ _ _ (lookupA_upsertA_self _ _ _)]
      · rw [createPrediction, hfind, hbg] at h1
        dsimp only at h1
        rw [if_neg hval] at h1
        cases h1

/-- Witness for C2: predicting team 101 in demonstration game 1 twice yields
the same bracket state as predicting it once, and a repeated save of winner
101 re-evaluates nothing. -/
theorem advance_winner_idempotent_amended_witness :
    gameSave 1 (some 101) (some 101) [] = ([] : List PredictionRec) ∧
    createPrediction demoGames 1 101 demoCreateResult =
      .ok demoCreateResult :=
  ⟨advance_winner_idempotent_amended.1 1 101 [],
   advance_winner_idempotent_amended.2 demoGames demoG1 demoG2 3 101 demoState
     demoCreateResult (by decide) (by decide) rfl (by decide) rfl rfl⟩

/-- C1 counterexample: on the canonical Game graph, `_update_next_game` uses
the first-empty-slot rule, so resolving the higher-numbered sibling (game 2)
first writes its winner 21 into slot 1 of the successor — not into slot 2 as
the claim requires. -/
theorem slot_assignment_counterexample :
    cexGame1.game_number < cexGame2.game_number ∧
    cexGame1.next_game = some cexNext.id ∧
    cexGame2.next_game = some cexNext.id ∧
    cexNext.team1 = none ∧ cexNext.team2 = none ∧
    updateNextGame cexGame2 21 (some cexNext) =
      some { cexNext with team1 := some 21, seed1 := some 8 } ∧
    (updateNextGame cexGame2 21 (some cexNext)).map GameRec.team2 =
      some none :=
  ⟨by decide, rfl, rfl, rfl, rfl, rfl, rfl⟩

/-- C1 amended: deterministic game-number slot assignment holds on the
bracket's BracketGame overlay (`create_prediction`): for sibling games
g1, g2 with g1.game_number < g2.game_number feeding the same successor,
predicting g1's winner always writes slot 1 (leaving slot 2 untouched),
predicting g2's winner always writes slot 2, and both call orders end with
slot 1 = g1's winner and slot 2 = g2's winner.  On the canonical Game graph
`_update_next_game` instead fills the first empty slot, so there the written
slot depends on resolution order (see the counterexample). -/
theorem slot_assignment_amended :
    ∀ (games : List GameRec) (g1 g2 : GameRec) (nid : Nat) (w1 w2 : TeamId)
      (s : BracketState) (bg1 bg2 : BracketGameRec),
      (games.map GameRec.id).Nodup → g1 ∈ games → g2 ∈ games →
      ¬ g1.id = g2.id →
      g1.next_game = some nid → g2.next_game = some nid →
      ¬ nid = g1.id → ¬ nid = g2.id →
      (∀ y ∈ games, y.next_game = some nid → y = g1 ∨ y = g2) →
      g1.game_number < g2.game_number →
      lookupA s.overlays g1.id = some bg1 →
      lookupA s.overlays g2.id = some bg2 →
      (bg1.team1 = some w1 ∨ bg1.team2 = some w1) →
      (bg2.team1 = some w2 ∨ bg2.team2 = some w2) →
      ∃ sA sB sC sD : BracketState,
        createPrediction games g1.id w1 s = .ok sA ∧
        createPrediction games g2.id w2 sA = .ok sB ∧
        createPrediction games g2.id w2 s = .ok sC ∧
        createPrediction games g1.id w1 sC = .ok sD ∧
        (∃ nb, lookupA sA.overlays nid = some nb ∧ nb.team1 = some w1 ∧
            nb.team2 = ((lookupA s.overlays nid).getD emptyBracketGame).team2) ∧
        (∃ nb, lookupA sC.overlays nid = some nb ∧ nb.team2 = some w2 ∧
            nb.team1 = ((lookupA s.overlays nid).getD emptyBracketGame).team1) ∧
        (∃ nb, lookupA sB.overlays nid = some nb ∧ nb.team1 = some w1 ∧
            nb.team2 = some w2) ∧
        (∃ nb, lookupA sD.overlays nid = some nb ∧ nb.team1 = some w1 ∧
            nb.team2 = some w2) := by
  intro games g1 g2 nid w1 w2 s bg1 bg2 hnd hg1 hg2 hne hn1 hn2 hnid1 hnid2
    hfeed horder hbg1 hbg2 hv1 hv2
  have hnlt : ¬ g2.game_number < g1.game_number := by omega
  have hfind1 : findGame games g1.id = some g1 := findGame_eq_self games g1 hnd hg1
  have hfind2 : findGame games g2.id = some g2 := findGame_eq_self games g2 hnd hg2
  have hoth1 : otherGame games g1.id nid = some g2 :=
    otherGame_eq games g1 g2 nid hnd hg2 hn2 (fun hh => hne hh.symm) hfeed
  have hoth2 : otherGame games g2.id nid = some g1 :=
    otherGame_eq games g2 g1 nid hnd hg1 hn1 hne
      (fun y hy hyn => (hfeed y hy hyn).symm)
  have hA := createPrediction_advance games g1.id w1 s g1 bg1 nid hfind1 hbg1
    hv1 hn1
  rw [hoth1] at hA
  have hbg2A : lookupA (upsertA s.overlays nid
      (viewAdvanceSlot g1 bg1 ((lookupA s.overlays nid).getD emptyBracketGame)
        (some g2) w1)) g2.id = some bg2 := by
    rw [lookupA_upsertA_ne _ _ _ _ (fun hh => hnid2 hh.symm)]
    exact hbg2
  have hB := createPrediction_advance games g2.id w2
    { predictions := upsertPrediction s.predictions g1.id w1,
      overlays := upsertA s.overlays nid
        (viewAdvanceSlot g1 bg1 ((lookupA s.overlays nid).getD emptyBracketGame)
          (some g2) w1) } g2 bg2 nid hfind2 hbg2A hv2 hn2
  rw [hoth2] at hB
  rw [show (lookupA (upsertA s.overlays nid
      (viewAdvanceSlot g1 bg1 ((lookupA s.overlays nid).getD emptyBracketGame)
        (some g2) w1)) nid) = some (viewAdvanceSlot g1 bg1
          ((lookupA s.overlays nid).getD emptyBracketGame) (some g2) w1)
    from lookupA_upsertA_self _ _ _, Option.getD_some] at hB
  have hC := createPrediction_advance games g2.id w2 s g2 bg2 nid hfind2 hbg2
    hv2 hn2
  rw [hoth2] at hC
  have hbg1C : lookupA (upsertA s.overlays nid
      (viewAdvanceSlot g2 bg2 ((lookupA s.overlays nid).getD emptyBracketGame)
        (some g1) w2)) g1.id = some bg1 := by
    rw [lookupA_upsertA_ne _ _ _ _ (fun hh => hnid1 hh.symm)]
    exact hbg1
  have hD := createPrediction_advance games g1.id w1
    { predictions := upsertPrediction s.predictions g2.id w2,
      overlays := upsertA s.overlays nid
        (viewAdvanceSlot g2 bg2 ((lookupA s.overlays nid).getD emptyBracketGame)
          (some g1) w2) } g1 bg1 nid hfind1 hbg1C hv1 hn1
  rw [hoth1] at hD
  rw [show (lookupA (upsertA s.overlays nid
      (viewAdvanceSlot g2 bg2 ((lookupA s.overlays nid).getD emptyBracketGame)
        (some g1) w2)) nid) = some (viewAdvanceSlot g2 bg2
          ((lookupA s.overlays nid).getD emptyBracketGame) (some g1) w2)
    from lookupA_upsertA_self _ _ _, Option.getD_some] at hD
  refine ⟨_, _, _, _, hA, hB, hC, hD, ?_, ?_, ?_, ?_⟩
  · refine ⟨_, lookupA_upsertA_self _ _ _, ?_, ?_⟩ <;>
      simp [viewAdvanceSlot, horder]
  · refine ⟨_, lookupA_upsertA_self _ _ _, ?_, ?_⟩ <;>
      simp [viewAdvanceSlot, hnlt]
  · refine ⟨_, lookupA_upsertA_self _ _ _, ?_, ?_⟩ <;>
      simp [viewAdvanceSlot, horder, hnlt]
  · refine ⟨_, lookupA_upsertA_self _ _ _, ?_, ?_⟩ <;>
      simp [viewAdvanceSlot, horder, hnlt]

/-- Witness for C1 (amended): in the demonstration bracket, predicting 102
in game 1 and 103 in game 2 fills game 3's overlay slots 1 and 2
respectively, in either order. -/
theorem slot_assignment_amended_witness :
    ∃ sA sB sC sD : BracketState,
      createPrediction demoGames demoG1.id 102 demoState = .ok sA ∧
      createPrediction demoGames demoG2.id 103 sA = .ok sB ∧
      createPrediction demoGames demoG2.id 103 demoState = .ok sC ∧
      createPrediction demoGames demoG1.id 102 sC = .ok sD ∧
      (∃ nb, lookupA sA.overlays 3 = some nb ∧ nb.team1 = some 102 ∧
          nb.team2 =
            ((lookupA demoState.overlays 3).getD emptyBracketGame).team2) ∧
      (∃ nb, lookupA sC.overlays 3 = some nb ∧ nb.team2 = some 103 ∧
          nb.team1 =
            ((lookupA demoState.overlays 3).getD emptyBracketGame).team1) ∧
      (∃ nb, lookupA sB.overlays 3 = some nb ∧ nb.team1 = some 102 ∧
          nb.team2 = some 103) ∧
      (∃ nb, lookupA sD.overlays 3 = some nb ∧ nb.team1 = some 102 ∧
          nb.team2 = some 103) :=
  slot_assignment_amended demoGames demoG1 demoG2 3 102 103 demoState demoBG1
    demoBG2 (by decide) (by decide) (by decide) (by decide) rfl rfl
    (by decide) (by decide) (by decide) (by decide) rfl rfl (by decide)
    (by decide)

/-- C9: generation skips a game as soon as a prediction exists for it, and a
successful HIGHER_SEED generation run is idempotent: a second run over the
same bracket succeeds returning exactly the same state — the prediction list
is unchanged (so no duplicate rows are inserted) and every predicted winner
is identical to the first run. -/
theorem generation_idempotent :
    (∀ (games : List GameRec) (fuel : Nat) (g : GameRec) (s : BracketState),
        (lookupA s.predictions g.id).isSome = true →
        predictAndAdvance games (fuel + 1) g s = .ok s) ∧
    (∀ (games : List GameRec) (s s' : BracketState),
        generatePredictions games s = .ok s' →
        generatePredictions games s' = .ok s') := by
  constructor
  · intro games fuel g s h
    simp only [predictAndAdvance]
    rw [if_pos h]
  · intro games s s' h
    rw [generatePredictions] at h ⊢
    have hspec := generateAux_spec games (games.length + 1) (sortGames games)
      s s' h
    exact generateAux_identity games (games.length + 1) (Nat.succ_pos _)
      (sortGames games) s' hspec.2.2.2

/-- Witness for C9: re-running generation over the fully generated
demonstration bracket returns it unchanged, and a single game with an
existing prediction is skipped. -/
theorem generation_idempotent_witness :
    predictAndAdvance demoGames 1 demoG1 demoResult = .ok demoResult ∧
    generatePredictions demoGames demoResult = .ok demoResult :=
  ⟨generation_idempotent.1 demoGames 0 demoG1 demoResult rfl,
   generation_idempotent.2 demoGames demoState demoResult rfl⟩

end BracketIQ
